import Mathlib

/-!
# BookMarx synchronization engine: shallow embedding and verification

This file embeds the synchronization core of the BookMarx repository
(browser extension + sync server) in Lean 4 and settles a list of
specification claims against it.

Client side (extension), from
`src/extension/background/{StorageManager,BookmarkManager,SyncManager}.ts`:
change capture handlers, the durable change queue, and the sync
orchestrator (incremental sync, initial import, apply-back of remote
changes).

Server side, from `src/server/db/database.ts`, `src/server/db/schema.sql`,
`src/server/api/sync.ts` and the express server file (status endpoint,
batch handler, initial-import handler): an in-memory relational model of
the SQLite tables with the schema's NOT NULL / CHECK constraints, and the
endpoint handlers.

Modelling conventions:
* JS objects with possibly-absent fields become structures of `Option`
  fields; a missing JS field (`undefined`) binds as SQL `NULL`.
* SQLite statements are `Except String` functions: an INSERT or UPDATE
  that would violate a NOT NULL or CHECK constraint of `schema.sql`
  throws, leaving the database unchanged (single-statement atomicity).
* Device metadata columns (browser, os, userAgent, ...) are omitted from
  the row models: no control flow in the embedded code inspects them.
* `async`/`await` sequencing on the single-threaded extension event loop
  is modelled by explicit state passing; values read from the network are
  parameters of the corresponding function.
-/

namespace Bookmarx

/-- JS truthiness of an optional string (`undefined`, `null` and `""` are
falsy), used by `bookmark.url ? 'bookmark' : 'folder'` in the capture
handlers. -/
def jsTruthy : Option String → Bool
  | none => false
  | some s => !s.isEmpty

/-! ## Wire data model (client queue entries = server batch items) -/

/-- The `type` field of a queued change / batch item. -/
inductive ChangeType where
  | CREATE
  | UPDATE
  | DELETE
  | MOVE
deriving DecidableEq, Repr

/-- The `data` object of a change.  Field `type` is the entity kind
(`"bookmark"` or `"folder"`); the remaining fields are the union of the
payload fields the capture handlers and the server dispatch read.
Missing JS fields are `none`. -/
structure ChangeData where
  type : Option String := none
  id : Option String := none
  browserId : Option String := none
  userId : Option String := none
  title : Option String := none
  url : Option String := none
  parentId : Option String := none
  position : Option Int := none
  dateAdded : Option Int := none
  status : Option String := none
  changesTitle : Option String := none
  changesUrl : Option String := none
  moveParentId : Option String := none
  moveOldParentId : Option String := none
  moveIndex : Option Int := none
deriving DecidableEq, Repr

/-- One change record as queued by `StorageManager.queueChange` and
consumed by the server's batch loop (timestamp / device metadata
omitted). -/
structure SyncChange where
  type : ChangeType
  data : ChangeData
deriving DecidableEq, Repr

/-! ## Local Queue Store (`StorageManager.ts`) -/

/-- The `chrome.storage.local` contents relevant to the sync engine
(settings and device identifiers omitted: no embedded control flow
reads them). -/
structure StorageData where
  changes : List SyncChange := []
  lastSync : Nat := 0
deriving DecidableEq, Repr

/-- Model of `StorageManager.queueChange`: appends the change to the durable
queue. -/
def queueChange (c : SyncChange) (s : StorageData) : StorageData :=
  { s with changes := s.changes ++ [c] }

/-- Model of `StorageManager.getQueuedChanges`. -/
def getQueuedChanges (s : StorageData) : List SyncChange :=
  s.changes

/-- Model of `StorageManager.clearQueuedChanges`: resets the queue to `[]`. -/
def clearQueuedChanges (s : StorageData) : StorageData :=
  { s with changes := [] }

/-- Model of `StorageManager.updateLastSync`: stores the current time. -/
def updateLastSync (now : Nat) (s : StorageData) : StorageData :=
  { s with lastSync := now }

/-! ## Change Capture (`BookmarkManager.ts`) -/

/-- A `chrome.bookmarks.BookmarkTreeNode` as read by the capture
handlers. -/
structure BookmarkTreeNode where
  id : String
  title : String
  url : Option String := none
  parentId : Option String := none
  index : Option Int := none
  dateAdded : Option Int := none
deriving DecidableEq, Repr

/-- Model of `chrome.bookmarks.BookmarkMoveInfo`. -/
structure BookmarkMoveInfo where
  parentId : String
  oldParentId : String
  index : Int
  oldIndex : Int
deriving DecidableEq, Repr

/-- Model of `chrome.bookmarks.BookmarkChangeInfo` (title, optional url). -/
structure BookmarkChangeInfo where
  title : String
  url : Option String := none
deriving DecidableEq, Repr

/-- Model of `BookmarkManager.processBookmark`: the flattened payload
(`position` is `bookmark.index || 0`). -/
def processBookmark (b : BookmarkTreeNode) : ChangeData :=
  { id := some b.id
    title := some b.title
    url := b.url
    parentId := b.parentId
    position := some (b.index.getD 0)
    dateAdded := b.dateAdded }

/-- Model of `BookmarkManager.handleBookmarkCreated`: queues a CREATE change for
every creation notification; the entity kind is `"bookmark"` when the
node has a (truthy) url, `"folder"` otherwise. -/
def handleBookmarkCreated (id : String) (b : BookmarkTreeNode)
    (s : StorageData) : StorageData :=
  queueChange
    { type := .CREATE
      data :=
        { processBookmark b with
          type := some (if jsTruthy b.url then "bookmark" else "folder")
          browserId := some id
          userId := some "default" } } s

/-- Model of `BookmarkManager.handleBookmarkRemoved`: queues a DELETE change; the
entity kind is hard-coded to `"bookmark"` (the handler cannot tell
whether the removed node was a folder). -/
def handleBookmarkRemoved (id : String) (s : StorageData) : StorageData :=
  queueChange
    { type := .DELETE
      data :=
        { type := some "bookmark"
          browserId := some id
          userId := some "default" } } s

/-- Model of `BookmarkManager.handleBookmarkChanged`: queues an UPDATE change
carrying the change info. -/
def handleBookmarkChanged (id : String) (info : BookmarkChangeInfo)
    (s : StorageData) : StorageData :=
  queueChange
    { type := .UPDATE
      data :=
        { type := some "bookmark"
          browserId := some id
          userId := some "default"
          changesTitle := some info.title
          changesUrl := info.url } } s

/-- Model of `BookmarkManager.handleBookmarkMoved`: fetches the node (its url
decides the entity kind) and queues a MOVE change only when the source
and destination parents differ; otherwise nothing is queued. -/
def handleBookmarkMoved (id : String) (nodeUrl : Option String)
    (moveInfo : BookmarkMoveInfo) (s : StorageData) : StorageData :=
  if moveInfo.parentId ≠ moveInfo.oldParentId then
    queueChange
      { type := .MOVE
        data :=
          { type := some (if jsTruthy nodeUrl then "bookmark" else "folder")
            browserId := some id
            userId := some "default"
            moveParentId := some moveInfo.parentId
            moveOldParentId := some moveInfo.oldParentId
            moveIndex := some moveInfo.index } } s
  else
    s

/-! ## Sync Orchestrator (`SyncManager.ts`)

The orchestrator's network reads are parameters: a `TransportOutcome`
stands for what `fetch` produced, and the host tree API
(`chrome.bookmarks.*`) is modelled by its observable effect on capture —
each apply-back call raises the corresponding notification, which runs
the handler `BookmarkManager.initialize` registered for it. -/

/-- Body of a successful HTTP response to the batch POST. -/
structure SyncResponse where
  success : Bool
  changes : Option (List SyncChange) := none
  error : Option String := none
deriving DecidableEq, Repr

/-- What `fetch` did: a network-level failure (rejected promise) or an
HTTP response with its `ok` flag and parsed JSON body. -/
inductive TransportOutcome where
  | networkError
  | httpResponse (ok : Bool) (body : SyncResponse)
deriving DecidableEq, Repr

/-- Model of `SyncManager.sendChangesToServer`: a network error or a non-2xx
response is caught and surfaced as `{success: false, error}`; a 2xx
response yields its parsed body. -/
def sendChangesToServer (t : TransportOutcome) : SyncResponse :=
  match t with
  | .networkError => { success := false, error := some "Failed to fetch" }
  | .httpResponse ok body =>
      if ok then body
      else { success := false, error := some "Server returned error status" }

/-- One iteration of `SyncManager.applyServerChanges` composed with the
host echo: the remote change is applied through the host API
(`chrome.bookmarks` create / update / remove / move), and the host
raises the matching notification, which invokes the capture handler
registered by `BookmarkManager.initialize`.  There is no suppression
bookkeeping anywhere in the source, so the handler runs on every echoed
notification.  The `Nat` component numbers host-assigned ids for created
nodes.  A MOVE apply-back is echoed with the host tree's previous parent
of the moved node, supplied by `hostOldParent`. -/
def echoStep (hostOldParent : String → String) (acc : Nat × StorageData)
    (c : SyncChange) : Nat × StorageData :=
  match c.type with
  | .CREATE =>
      -- chrome.bookmarks.create(...) → onCreated(newId, node)
      (acc.1 + 1,
        handleBookmarkCreated ("host" ++ toString acc.1)
          { id := "host" ++ toString acc.1
            title := (c.data.title.getD "")
            url := c.data.url
            parentId := c.data.parentId
            index := c.data.position
            dateAdded := none } acc.2)
  | .UPDATE =>
      -- chrome.bookmarks.update(data.id, ...) → onChanged(id, info)
      (acc.1,
        handleBookmarkChanged (c.data.id.getD "")
          { title := c.data.changesTitle.getD ""
            url := c.data.changesUrl } acc.2)
  | .DELETE =>
      -- chrome.bookmarks.remove(data.id) → onRemoved(id, info)
      (acc.1, handleBookmarkRemoved (c.data.id.getD "") acc.2)
  | .MOVE =>
      -- chrome.bookmarks.move(data.id, moveInfo) → onMoved(id, info)
      (acc.1,
        handleBookmarkMoved (c.data.id.getD "") c.data.url
          { parentId := c.data.moveParentId.getD ""
            oldParentId := hostOldParent (c.data.id.getD "")
            index := c.data.moveIndex.getD 0
            oldIndex := 0 } acc.2)

/-- Apply a list of remote changes back to the host (see `echoStep`),
threading the counter of host-assigned ids. -/
def applyServerChangesEcho (hostOldParent : String → String)
    (changes : List SyncChange) (s : StorageData) : StorageData :=
  (changes.foldl (echoStep hostOldParent) (0, s)).2

/-- Result of a `sync()` call: the storage state afterwards and either
the returned boolean or the thrown error message. -/
structure SyncResult where
  state : StorageData
  outcome : Except String Bool
deriving Repr

/-- Model of `SyncManager.sync` (incremental path): reads the queued changes,
transmits them, and on a successful response clears the queue, advances
`lastSync` and applies any server-sent changes (here with host echo).
`inFlight` are the changes capture appends to the queue while the
transmission is awaited; on an empty queue the method returns early.
A failed response makes the method throw, leaving storage untouched. -/
def sync (hostOldParent : String → String) (s0 : StorageData)
    (inFlight : List SyncChange) (t : TransportOutcome) (now : Nat) :
    SyncResult :=
  let changes := getQueuedChanges s0
  if changes.isEmpty then
    { state := s0, outcome := .ok true }
  else
    -- the awaited fetch is the suspension point: capture may run
    let s1 : StorageData := { s0 with changes := s0.changes ++ inFlight }
    let response := sendChangesToServer t
    if response.success then
      let s2 := clearQueuedChanges s1
      let s3 := updateLastSync now s2
      let s4 :=
        if (response.changes.getD []).isEmpty then s3
        else applyServerChangesEcho hostOldParent (response.changes.getD []) s3
      { state := s4, outcome := .ok true }
    else
      { state := s1, outcome := .error ((response.error).getD "Sync failed") }

/-- Parsed body of the initial-import POST response. -/
structure InitialSyncResponse where
  success : Bool
deriving DecidableEq, Repr

/-- The `fetch` outcome for the initial-import POST. -/
inductive InitialTransportOutcome where
  | networkError
  | httpResponse (ok : Bool) (body : InitialSyncResponse)
deriving DecidableEq, Repr

/-- Model of `SyncManager.sendInitialSync` (second extension snapshot): walks the
host tree and uploads it; on a successful response it advances
`lastSync` and returns `true`; a transport failure or an unsuccessful
body makes it throw.  The change queue is not touched on any path. -/
def sendInitialSync (s : StorageData) (t : InitialTransportOutcome)
    (now : Nat) : SyncResult :=
  match t with
  | .networkError =>
      { state := s, outcome := .error "Failed to send initial sync" }
  | .httpResponse ok body =>
      if !ok then
        { state := s, outcome := .error "Failed to send initial sync" }
      else if body.success then
        { state := updateLastSync now s, outcome := .ok true }
      else
        { state := s, outcome := .error "Initial sync failed" }

/-! ## Entity Store (`database.ts` over `schema.sql`)

Each SQLite table is a list of rows; `AUTOINCREMENT` primary keys come
from per-table counters.  Statement execution is `Except String`: a
NOT NULL or CHECK violation throws and leaves the database unchanged. -/

/-- A row of the `bookmarks` table.  Columns `url, title, parentId,
position, dateAdded, browserId, userId` are NOT NULL; `status` is
nullable with CHECK `status IN ('active','deleted')`. -/
structure BookmarkRow where
  id : Nat
  browserId : String
  userId : String
  url : String
  title : String
  parentId : String
  position : Int
  dateAdded : Int
  status : Option String
  syncVersion : Int
deriving DecidableEq, Repr

/-- A row of the `folders` table (`parentId` is nullable, no `url`). -/
structure FolderRow where
  id : Nat
  browserId : String
  userId : String
  title : String
  parentId : Option String
  position : Int
  dateAdded : Int
  status : Option String
  syncVersion : Int
deriving DecidableEq, Repr

/-- A row of the `browsers` table (device metadata columns omitted). -/
structure BrowserRow where
  browserInstanceId : String
  userId : String
  deviceId : String
deriving DecidableEq, Repr

/-- A row of the `sync_history` table. -/
structure SyncHistoryRow where
  id : Nat
  userId : String
  type : String
  changesCount : Nat
  status : String
  bookmarksProcessed : Nat
  foldersProcessed : Nat
deriving DecidableEq, Repr

/-- The server database. -/
structure ServerDB where
  browsers : List BrowserRow := []
  folders : List FolderRow := []
  bookmarks : List BookmarkRow := []
  syncHistory : List SyncHistoryRow := []
  nextFolderId : Nat := 1
  nextBookmarkId : Nat := 1
  nextSyncHistoryId : Nat := 1
deriving DecidableEq, Repr

/-- The empty database (fresh schema). -/
def emptyDB : ServerDB := {}

/-- CHECK `status IN ('active','deleted')`; a NULL status passes the
CHECK (SQL three-valued logic). -/
def statusCheckOk : Option String → Bool
  | none => true
  | some s => s == "active" || s == "deleted"

/-- Argument object of `createBookmark` / `createFolder` /
`updateBookmark` / `updateFolder` (a JS object, so every field may be
absent). -/
structure EntityInput where
  browserId : Option String := none
  userId : Option String := none
  url : Option String := none
  title : Option String := none
  parentId : Option String := none
  position : Option Int := none
  dateAdded : Option Int := none
  status : Option String := none
  syncVersion : Option Int := none
deriving DecidableEq, Repr

/-- Outcome of a successful statement (`better-sqlite3` run info). -/
structure RunInfo where
  changes : Nat
  lastInsertRowid : Nat
deriving DecidableEq, Repr

/-- Model of `DatabaseService.createBookmark`: INSERT with
`status = b.status || 'active'` and `syncVersion = b.syncVersion || 1`;
throws on a NOT NULL violation of `url, title, parentId, position,
dateAdded, browserId, userId`. -/
def createBookmark (db : ServerDB) (b : EntityInput) :
    Except String (ServerDB × RunInfo) :=
  match b.browserId, b.userId, b.url, b.title, b.parentId, b.position,
      b.dateAdded with
  | some bid, some uid, some url, some title, some pid, some pos,
      some added =>
      let st := some ((b.status).getD "active")
      if statusCheckOk st then
        .ok
          ({ db with
              bookmarks := db.bookmarks ++
                [{ id := db.nextBookmarkId
                   browserId := bid
                   userId := uid
                   url := url
                   title := title
                   parentId := pid
                   position := pos
                   dateAdded := added
                   status := st
                   syncVersion := (b.syncVersion).getD 1 }]
              nextBookmarkId := db.nextBookmarkId + 1 },
            { changes := 1, lastInsertRowid := db.nextBookmarkId })
      else .error "CHECK constraint failed: bookmarks"
  | _, _, _, _, _, _, _ => .error "NOT NULL constraint failed: bookmarks"

/-- Model of `DatabaseService.createFolder`: as `createBookmark` but into
`folders`; `parentId` is nullable and there is no `url`. -/
def createFolder (db : ServerDB) (f : EntityInput) :
    Except String (ServerDB × RunInfo) :=
  match f.browserId, f.userId, f.title, f.position, f.dateAdded with
  | some bid, some uid, some title, some pos, some added =>
      let st := some ((f.status).getD "active")
      if statusCheckOk st then
        .ok
          ({ db with
              folders := db.folders ++
                [{ id := db.nextFolderId
                   browserId := bid
                   userId := uid
                   title := title
                   parentId := f.parentId
                   position := pos
                   dateAdded := added
                   status := st
                   syncVersion := (f.syncVersion).getD 1 }]
              nextFolderId := db.nextFolderId + 1 },
            { changes := 1, lastInsertRowid := db.nextFolderId })
      else .error "CHECK constraint failed: folders"
  | _, _, _, _, _ => .error "NOT NULL constraint failed: folders"

/-- WHERE clause of the UPDATE statements: `browserId = ? AND
userId = ?` (a NULL binding matches no row). -/
def rowMatchesBookmark (u : EntityInput) (r : BookmarkRow) : Bool :=
  u.browserId == some r.browserId && u.userId == some r.userId

/-- WHERE clause of `updateFolder`. -/
def rowMatchesFolder (u : EntityInput) (r : FolderRow) : Bool :=
  u.browserId == some r.browserId && u.userId == some r.userId

/-- Model of `DatabaseService.updateBookmark`: UPDATE setting `title, url,
parentId, position, status` and `syncVersion = syncVersion + 1` on every
row matching `(browserId, userId)`.  When at least one row matches, a
NULL in a NOT NULL column or a CHECK-violating status throws and the
statement is rolled back; with no matching row the statement succeeds
with 0 changes. -/
def updateBookmark (db : ServerDB) (u : EntityInput) :
    Except String (ServerDB × RunInfo) :=
  let matched := db.bookmarks.filter (rowMatchesBookmark u)
  if matched.isEmpty then
    .ok (db, { changes := 0, lastInsertRowid := 0 })
  else
    match u.title, u.url, u.parentId, u.position with
    | some title, some url, some pid, some pos =>
        if statusCheckOk u.status then
          .ok
            ({ db with
                bookmarks := db.bookmarks.map fun r =>
                  if rowMatchesBookmark u r then
                    { r with
                        title := title
                        url := url
                        parentId := pid
                        position := pos
                        status := u.status
                        syncVersion := r.syncVersion + 1 }
                  else r },
              { changes := matched.length, lastInsertRowid := 0 })
        else .error "CHECK constraint failed: bookmarks"
    | _, _, _, _ => .error "NOT NULL constraint failed: bookmarks"

/-- Model of `DatabaseService.updateFolder`: as `updateBookmark` on `folders`
(`parentId` may be set to NULL; there is no `url`). -/
def updateFolder (db : ServerDB) (u : EntityInput) :
    Except String (ServerDB × RunInfo) :=
  let matched := db.folders.filter (rowMatchesFolder u)
  if matched.isEmpty then
    .ok (db, { changes := 0, lastInsertRowid := 0 })
  else
    match u.title, u.position with
    | some title, some pos =>
        if statusCheckOk u.status then
          .ok
            ({ db with
                folders := db.folders.map fun r =>
                  if rowMatchesFolder u r then
                    { r with
                        title := title
                        parentId := u.parentId
                        position := pos
                        status := u.status
                        syncVersion := r.syncVersion + 1 }
                  else r },
              { changes := matched.length, lastInsertRowid := 0 })
        else .error "CHECK constraint failed: folders"
    | _, _ => .error "NOT NULL constraint failed: folders"

/-- Model of `DatabaseService.registerBrowser`: upsert keyed on
`browserInstanceId`. -/
def registerBrowser (db : ServerDB) (b : BrowserRow) : ServerDB :=
  if db.browsers.any (fun r => r.browserInstanceId == b.browserInstanceId) then
    { db with
        browsers := db.browsers.map fun r =>
          if r.browserInstanceId == b.browserInstanceId then b else r }
  else
    { db with browsers := db.browsers ++ [b] }

/-- Model of `DatabaseService.getBookmarkCount`: `SELECT COUNT(*) FROM bookmarks
WHERE userId = ?` — the `bookmarks` table only, every status counted. -/
def getBookmarkCount (db : ServerDB) (userId : String) : Nat :=
  (db.bookmarks.filter (fun r => r.userId == userId)).length

/-- Model of `DatabaseService.createSyncHistory`: appends one ledger row (the
handlers never pass nested error records). -/
def createSyncHistory (db : ServerDB) (userId type status : String)
    (changesCount bookmarksProcessed foldersProcessed : Nat) : ServerDB :=
  { db with
      syncHistory := db.syncHistory ++
        [{ id := db.nextSyncHistoryId
           userId := userId
           type := type
           changesCount := changesCount
           status := status
           bookmarksProcessed := bookmarksProcessed
           foldersProcessed := foldersProcessed }]
      nextSyncHistoryId := db.nextSyncHistoryId + 1 }

/-! ## Ingest Service (`api/sync.ts` and the express server file) -/

/-- What the dispatch passes to the database layer: the change's `data`
object spread into the statement arguments. -/
def entityInputOfData (d : ChangeData) : EntityInput :=
  { browserId := d.browserId
    userId := d.userId
    url := d.url
    title := d.title
    parentId := d.parentId
    position := d.position
    dateAdded := d.dateAdded
    status := d.status }

/-- One entry of the `results` array returned to the client. -/
inductive ItemResult where
  | ok (info : RunInfo)
  | failed (message : String)
deriving DecidableEq, Repr

/-- Returns `true` for an error entry of the results array. -/
def ItemResult.isFailed : ItemResult → Bool
  | .ok _ => false
  | .failed _ => true

/-- One iteration of the batch loop of `handleSync`: dispatch on the
change type and the entity kind (`data.type === 'bookmark'`, anything
else goes to the folder branch); DELETE is an update that overrides
`status` with `'deleted'`; an exception is caught and pushed as an error
entry without stopping the loop.  The switch has no MOVE case, so a MOVE
change executes nothing and pushes no result. -/
def processChange (db : ServerDB) (c : SyncChange) :
    ServerDB × List ItemResult :=
  match c.type with
  | .CREATE =>
      match
        (if c.data.type == some "bookmark" then
          createBookmark db (entityInputOfData c.data)
        else
          createFolder db (entityInputOfData c.data)) with
      | .ok (db2, info) => (db2, [.ok info])
      | .error m => (db, [.failed m])
  | .UPDATE =>
      match
        (if c.data.type == some "bookmark" then
          updateBookmark db (entityInputOfData c.data)
        else
          updateFolder db (entityInputOfData c.data)) with
      | .ok (db2, info) => (db2, [.ok info])
      | .error m => (db, [.failed m])
  | .DELETE =>
      match
        (if c.data.type == some "bookmark" then
          updateBookmark db { entityInputOfData c.data with status := some "deleted" }
        else
          updateFolder db { entityInputOfData c.data with status := some "deleted" }) with
      | .ok (db2, info) => (db2, [.ok info])
      | .error m => (db, [.failed m])
  | .MOVE => (db, [])

/-- Response of the batch POST handler. -/
structure SyncHandlerResult where
  db : ServerDB
  action : String
  results : List ItemResult
deriving Repr

/-- Model of `handleSync` (`api/sync.ts`): registers the browser, answers
`NEED_INITIAL_IMPORT` when the owner has zero rows in the `bookmarks`
table, otherwise runs the batch loop and appends exactly one
`sync_history` row of type `SYNC` with `changesCount = changes.length`
and `status = 'SUCCESS'` regardless of per-item errors. -/
def handleSync (db0 : ServerDB) (deviceId : String) (meta : BrowserRow)
    (changes : List SyncChange) : SyncHandlerResult :=
  let db1 := registerBrowser db0 meta
  if getBookmarkCount db1 deviceId == 0 then
    { db := db1, action := "NEED_INITIAL_IMPORT", results := [] }
  else
    let step := changes.foldl
      (fun (acc : ServerDB × List ItemResult) c =>
        let next := processChange acc.1 c
        (next.1, acc.2 ++ next.2))
      (db1, [])
    let db3 := createSyncHistory step.1 deviceId "SYNC" "SUCCESS"
      changes.length
      (changes.filter (fun c => c.data.type == some "bookmark")).length
      (changes.filter (fun c => c.data.type == some "folder")).length
    { db := db3, action := "SYNC_COMPLETE", results := step.2 }

/-- The folder loop of `handleInitialSync`: each folder is inserted with
`userId` overridden by the requesting device id; the first exception
aborts the whole import. -/
def importFolders (deviceId : String) (db : ServerDB) :
    List EntityInput → Except String ServerDB
  | [] => .ok db
  | f :: rest =>
      match createFolder db { f with userId := some deviceId } with
      | .error e => .error e
      | .ok step => importFolders deviceId step.1 rest

/-- The bookmark loop of `handleInitialSync`, run after all folders. -/
def importBookmarks (deviceId : String) (db : ServerDB) :
    List EntityInput → Except String ServerDB
  | [] => .ok db
  | b :: rest =>
      match createBookmark db { b with userId := some deviceId } with
      | .error e => .error e
      | .ok step => importBookmarks deviceId step.1 rest

/-- Model of `handleInitialSync` (server file): registers the browser, inserts all
folders first, then all bookmarks, then appends one `INITIAL_IMPORT`
history row with `status = 'SUCCESS'`; any thrown insert aborts with a
500 (modelled as `.error`). -/
def handleInitialSync (db0 : ServerDB) (deviceId : String)
    (meta : BrowserRow) (folders bookmarks : List EntityInput) :
    Except String ServerDB :=
  match importFolders deviceId (registerBrowser db0 meta) folders with
  | .error e => .error e
  | .ok db2 =>
      match importBookmarks deviceId db2 bookmarks with
      | .error e => .error e
      | .ok db3 =>
          .ok (createSyncHistory db3 deviceId "INITIAL_IMPORT" "SUCCESS"
            (bookmarks.length + folders.length) bookmarks.length
            folders.length)

/-- Model of `GET /api/v1/sync/status`: `needsInitialSync` is
`getBookmarkCount(deviceId) === 0` — only the `bookmarks` table is
consulted, with no status filter. -/
def statusNeedsInitialSync (db : ServerDB) (deviceId : String) : Bool :=
  getBookmarkCount db deviceId == 0

/-! ## Claim-support definitions: predicates and concrete inputs -/

/-- A transport failure: the `fetch` promise rejected (network error) or
the response was non-2xx. -/
def transportFails : TransportOutcome → Prop
  | .networkError => True
  | .httpResponse ok _ => ok = false

/-- Number of `bookmarks` rows carrying a given natural key
`(browserId, userId)`. -/
def countByKey (db : ServerDB) (bid uid : String) : Nat :=
  (db.bookmarks.filter
    (fun r => r.browserId == bid && r.userId == uid)).length

/-- A client CREATE change for a bookmark, with the payload the capture
handler produces. -/
def mkCreateChange (bid uid url title pid : String) (pos added : Int) :
    SyncChange :=
  { type := .CREATE
    data :=
      { type := some "bookmark"
        browserId := some bid
        userId := some uid
        title := some title
        url := some url
        parentId := some pid
        position := some pos
        dateAdded := some added } }

/-- Sample captured change. -/
def sampleCreateChange : SyncChange :=
  mkCreateChange "b1" "u1" "https://example.com" "Example" "1" 0 100

/-- A second, distinct sample change (captured during transmission in
the C3 scenario). -/
def sampleCreateChange2 : SyncChange :=
  mkCreateChange "b2" "u1" "https://example.org" "Example 2" "1" 1 101

/-- Sample browser registration metadata. -/
def sampleMeta : BrowserRow :=
  { browserInstanceId := "inst1", userId := "d1", deviceId := "dev1" }

/-- A database holding one active bookmark for owner `d1` (so that the
batch handler does not divert to `NEED_INITIAL_IMPORT`). -/
def dbOneBookmark : ServerDB :=
  { bookmarks :=
      [{ id := 1
         browserId := "b0"
         userId := "d1"
         url := "https://example.net"
         title := "Seed"
         parentId := "1"
         position := 0
         dateAdded := 50
         status := some "active"
         syncVersion := 1 }]
    nextBookmarkId := 2 }

/-- The five-change batch of the partial-batch scenario: items 1,2,4,5
are valid bookmark CREATEs; item 3 lacks the NOT NULL `url`. -/
def batchOf5 : List SyncChange :=
  [ mkCreateChange "b1" "u1" "https://a.example" "A" "1" 0 100,
    mkCreateChange "b2" "u1" "https://b.example" "B" "1" 1 101,
    { type := .CREATE
      data :=
        { type := some "bookmark"
          browserId := some "b3"
          userId := some "u1"
          title := some "C"
          parentId := some "1"
          position := some 2
          dateAdded := some 102 } },
    mkCreateChange "b4" "u1" "https://d.example" "D" "1" 3 103,
    mkCreateChange "b5" "u1" "https://e.example" "E" "1" 4 104 ]

/-- Insert arguments for the C9 scenario: a full bookmark for natural
key `("b1", "u1")`. -/
def fullBookmarkInput : EntityInput :=
  { browserId := some "b1"
    userId := some "u1"
    url := some "https://example.com"
    title := some "Example"
    parentId := some "1"
    position := some 0
    dateAdded := some 100 }

/-- Update arguments that tombstone key `("b1", "u1")` (all NOT NULL
columns supplied, `status = 'deleted'`). -/
def tombstoneInput : EntityInput :=
  { browserId := some "b1"
    userId := some "u1"
    url := some "https://example.com"
    title := some "Example"
    parentId := some "1"
    position := some 0
    dateAdded := some 100
    status := some "deleted" }

/-- A folder payload for the folders-only initial import of the C5
scenario. -/
def sampleFolderInput : EntityInput :=
  { browserId := some "f1"
    userId := some "default"
    title := some "Folder"
    position := some 0
    dateAdded := some 10 }

/-- The store produced by `createBookmark emptyDB fullBookmarkInput`. -/
def dbAfterFirstCreate : ServerDB :=
  { bookmarks :=
      [{ id := 1
         browserId := "b1"
         userId := "u1"
         url := "https://example.com"
         title := "Example"
         parentId := "1"
         position := 0
         dateAdded := 100
         status := some "active"
         syncVersion := 1 }]
    nextBookmarkId := 2 }

/-- The store produced by a successful one-bookmark initial import for
device `d1` (see the C5 witness). -/
def dbAfterImport : ServerDB :=
  { browsers :=
      [{ browserInstanceId := "inst1", userId := "d1", deviceId := "dev1" }]
    bookmarks :=
      [{ id := 1
         browserId := "b1"
         userId := "d1"
         url := "https://example.com"
         title := "Example"
         parentId := "1"
         position := 0
         dateAdded := 100
         status := some "active"
         syncVersion := 1 }]
    syncHistory :=
      [{ id := 1
         userId := "d1"
         type := "INITIAL_IMPORT"
         changesCount := 1
         status := "SUCCESS"
         bookmarksProcessed := 1
         foldersProcessed := 0 }]
    nextBookmarkId := 2
    nextSyncHistoryId := 2 }

/-! # Theorems

Shared lemmas first, then one theorem per claim (with its witness or
counterexample where required). -/

theorem queueChange_changes (c : SyncChange) (s : StorageData) :
    (queueChange c s).changes = s.changes ++ [c] := rfl

theorem handleBookmarkCreated_length (id : String) (b : BookmarkTreeNode)
    (s : StorageData) :
    ((handleBookmarkCreated id b s).changes).length = s.changes.length + 1 := by
  simp [handleBookmarkCreated, queueChange]

theorem handleBookmarkRemoved_length (id : String) (s : StorageData) :
    ((handleBookmarkRemoved id s).changes).length = s.changes.length + 1 := by
  simp [handleBookmarkRemoved, queueChange]

theorem handleBookmarkChanged_length (id : String) (info : BookmarkChangeInfo)
    (s : StorageData) :
    ((handleBookmarkChanged id info s).changes).length = s.changes.length + 1 := by
  simp [handleBookmarkChanged, queueChange]

theorem echoStep_length (hop : String → String) (n : Nat) (s : StorageData)
    (c : SyncChange) (h : c.type ≠ ChangeType.MOVE) :
    (((echoStep hop (n, s) c).2.changes).length) = s.changes.length + 1 := by
  cases hc : c.type with
  | CREATE => simp [echoStep, hc, handleBookmarkCreated_length]
  | UPDATE => simp [echoStep, hc, handleBookmarkChanged_length]
  | DELETE => simp [echoStep, hc, handleBookmarkRemoved_length]
  | MOVE => exact absurd hc h

theorem echoFold_length (hop : String → String) (cs : List SyncChange) :
    ∀ (n : Nat) (s : StorageData), (∀ c ∈ cs, c.type ≠ ChangeType.MOVE) →
      (((cs.foldl (echoStep hop) (n, s)).2.changes).length =
        s.changes.length + cs.length) := by
  induction cs with
  | nil => intro n s _; simp
  | cons c cs ih =>
      intro n s h
      have hc : c.type ≠ ChangeType.MOVE := h c (List.mem_cons_self c cs)
      have hstep := echoStep_length hop n s c hc
      have htail : (List.foldl (echoStep hop) (echoStep hop (n, s) c) cs).2.changes.length =
          ((echoStep hop (n, s) c).2.changes).length + cs.length :=
        ih (echoStep hop (n, s) c).1 (echoStep hop (n, s) c).2
          (fun d hd => h d (List.mem_cons_of_mem c hd))
      rw [List.foldl_cons, htail, hstep, List.length_cons]
      omega

/-- C1.  The spec claims an in-memory suppress set drops every capture
notification raised while a remote change is applied back, so that 0 new
ChangeRecords are captured.  No such set exists in the source: the
capture handlers enqueue on every notification, so applying a batch of N
remote CREATE / UPDATE / DELETE changes (each echoed by the host as one
notification) captures exactly N new ChangeRecords. -/
theorem C1_apply_remote_recaptures_each_change (hop : String → String)
    (changes : List SyncChange) (s : StorageData)
    (h : ∀ c ∈ changes, c.type ≠ ChangeType.MOVE) :
    ((applyServerChangesEcho hop changes s).changes).length =
      s.changes.length + changes.length :=
  echoFold_length hop changes 0 s h

/-- C1 witness: a concrete one-change apply-back captures one record. -/
theorem C1_witness :
    ((applyServerChangesEcho (fun _ => "1") [sampleCreateChange]
      { changes := [], lastSync := 0 }).changes).length = 1 := by
  simpa using C1_apply_remote_recaptures_each_change (fun _ => "1")
    [sampleCreateChange] { changes := [], lastSync := 0 } (by decide)

/-- C1 counterexample: applying N = 2 remote changes (a CREATE and a
DELETE) to a host that echoes each mutation captures 2 new
ChangeRecords, not the 0 the claim requires. -/
theorem C1_counterexample :
    ((applyServerChangesEcho (fun _ => "1")
      [sampleCreateChange,
       { type := .DELETE, data := { id := some "b0" } }]
      { changes := [], lastSync := 0 }).changes).length = 2 := by
  decide

/-- C8.  A MOVE notification is forwarded as a queued MOVE change iff
the source and destination parents differ; but a same-parent reorder is
dropped entirely — contrary to the claim, no UPDATE-worthy position
change (indeed no change at all) is captured for it. -/
theorem C8_move_forwarded_iff_parents_differ (id : String)
    (nodeUrl : Option String) (mi : BookmarkMoveInfo) (s : StorageData) :
    ((∃ c, (handleBookmarkMoved id nodeUrl mi s).changes =
        s.changes ++ [c] ∧ c.type = ChangeType.MOVE) ↔
      mi.parentId ≠ mi.oldParentId) ∧
    (mi.parentId = mi.oldParentId → handleBookmarkMoved id nodeUrl mi s = s) := by
  by_cases h : mi.parentId = mi.oldParentId
  · refine ⟨⟨?_, fun hne => absurd h hne⟩, fun _ => ?_⟩
    · rintro ⟨c, hc, -⟩
      rw [handleBookmarkMoved, if_neg (not_not_intro h)] at hc
      simp at hc
    · rw [handleBookmarkMoved, if_neg (not_not_intro h)]
  · refine ⟨⟨fun _ => h, fun _ => ?_⟩, fun he => absurd he h⟩
    refine ⟨{ type := .MOVE,
              data := { type := some (if jsTruthy nodeUrl then "bookmark" else "folder"),
                        browserId := some id,
                        userId := some "default",
                        moveParentId := some mi.parentId,
                        moveOldParentId := some mi.oldParentId,
                        moveIndex := some mi.index } }, ?_, rfl⟩
    rw [handleBookmarkMoved, if_pos h]
    rfl

/-- C8 witness: a same-parent reorder leaves storage untouched. -/
theorem C8_witness :
    handleBookmarkMoved "m1" none
      { parentId := "p", oldParentId := "p", index := 1, oldIndex := 0 }
      { changes := [], lastSync := 3 } = { changes := [], lastSync := 3 } :=
  (C8_move_forwarded_iff_parents_differ "m1" none
    { parentId := "p", oldParentId := "p", index := 1, oldIndex := 0 }
    { changes := [], lastSync := 3 }).2 rfl

/-- C8 counterexample: a reorder of a bookmark within one parent queues
nothing — in particular no UPDATE change carrying the position, which
the claim says is captured. -/
theorem C8_counterexample :
    (handleBookmarkMoved "b7" (some "https://x.example")
      { parentId := "p1", oldParentId := "p1", index := 2, oldIndex := 0 }
      { changes := [sampleCreateChange], lastSync := 0 }).changes =
    [sampleCreateChange] := by
  rfl

/-- C7.  Any transport failure (network error or non-2xx response)
during an incremental sync with a non-empty queue makes `sync` throw:
nothing is acknowledged — the queue keeps every pending change
(including any captured during transmission) and `lastSync` is
untouched. -/
theorem C7_transport_failure_aborts_sync (hop : String → String)
    (s0 : StorageData) (inFlight : List SyncChange) (t : TransportOutcome)
    (now : Nat) (hne : s0.changes ≠ []) (hf : transportFails t) :
    (∃ msg, (sync hop s0 inFlight t now).outcome = .error msg) ∧
    (sync hop s0 inFlight t now).state.changes = s0.changes ++ inFlight ∧
    (sync hop s0 inFlight t now).state.lastSync = s0.lastSync := by
  have hni : s0.changes.isEmpty = false := by
    simp [List.isEmpty_iff, hne]
  cases t with
  | networkError =>
      refine ⟨⟨"Failed to fetch", ?_⟩, ?_, ?_⟩ <;>
        simp [sync, getQueuedChanges, hni, sendChangesToServer]
  | httpResponse ok body =>
      have hok : ok = false := hf
      subst hok
      refine ⟨⟨"Server returned error status", ?_⟩, ?_, ?_⟩ <;>
        simp [sync, getQueuedChanges, hni, sendChangesToServer]

/-- C7 witness: a network error at a one-element queue. -/
theorem C7_witness :
    (∃ msg, (sync (fun _ => "1") { changes := [sampleCreateChange], lastSync := 7 }
      [] TransportOutcome.networkError 9).outcome = .error msg) ∧
    (sync (fun _ => "1") { changes := [sampleCreateChange], lastSync := 7 }
      [] TransportOutcome.networkError 9).state.changes =
      [sampleCreateChange] ++ [] ∧
    (sync (fun _ => "1") { changes := [sampleCreateChange], lastSync := 7 }
      [] TransportOutcome.networkError 9).state.lastSync = 7 :=
  C7_transport_failure_aborts_sync (fun _ => "1")
    { changes := [sampleCreateChange], lastSync := 7 } []
    TransportOutcome.networkError 9 (List.cons_ne_nil _ _) trivial

/-- C3.  The spec claims a successful incremental sync acknowledges
exactly the transmitted batch, leaving changes captured during
transmission pending.  In the source, `clearQueuedChanges` resets the
whole queue, so everything — including the in-flight captures — is
removed; `lastSync` is advanced. -/
theorem C3_success_clears_entire_queue (hop : String → String)
    (s0 : StorageData) (inFlight : List SyncChange) (body : SyncResponse)
    (now : Nat) (hne : s0.changes ≠ []) (hs : body.success = true)
    (hnc : body.changes.getD [] = []) :
    (sync hop s0 inFlight (.httpResponse true body) now).state =
      { changes := [], lastSync := now } ∧
    (sync hop s0 inFlight (.httpResponse true body) now).outcome = .ok true := by
  have hni : s0.changes.isEmpty = false := by
    simp [List.isEmpty_iff, hne]
  constructor <;>
    simp [sync, getQueuedChanges, hni, sendChangesToServer, hs, hnc,
      clearQueuedChanges, updateLastSync]

/-- C3 witness: with one queued change, one in-flight capture and a
successful empty response, the queue ends empty and `lastSync` is 5. -/
theorem C3_witness :
    (sync (fun _ => "1") { changes := [sampleCreateChange], lastSync := 0 }
      [sampleCreateChange2] (.httpResponse true { success := true }) 5).state =
      { changes := [], lastSync := 5 } ∧
    (sync (fun _ => "1") { changes := [sampleCreateChange], lastSync := 0 }
      [sampleCreateChange2] (.httpResponse true { success := true }) 5).outcome =
      .ok true :=
  C3_success_clears_entire_queue (fun _ => "1")
    { changes := [sampleCreateChange], lastSync := 0 } [sampleCreateChange2]
    { success := true } 5 (List.cons_ne_nil _ _) rfl rfl

/-- C3 counterexample: `sampleCreateChange2` is captured while the batch
`[sampleCreateChange]` is in flight; after the successful sync it is
gone from the queue, though the claim says it must still be pending. -/
theorem C3_counterexample :
    sampleCreateChange2 ∉
      (sync (fun _ => "1") { changes := [sampleCreateChange], lastSync := 0 }
        [sampleCreateChange2] (.httpResponse true { success := true }) 5).state.changes := by
  decide

/-- C4.  The spec claims a successful initial import clears the local
queue and advances `lastSync`.  `sendInitialSync` only advances
`lastSync`; it never touches the queue. -/
theorem C4_initial_import_keeps_queue (s : StorageData)
    (body : InitialSyncResponse) (now : Nat) (hs : body.success = true) :
    (sendInitialSync s (.httpResponse true body) now).state.changes =
      s.changes ∧
    (sendInitialSync s (.httpResponse true body) now).state.lastSync = now ∧
    (sendInitialSync s (.httpResponse true body) now).outcome = .ok true := by
  refine ⟨?_, ?_, ?_⟩ <;> simp [sendInitialSync, hs, updateLastSync]

/-- C4 witness: a successful initial import over a one-element queue. -/
theorem C4_witness :
    (sendInitialSync { changes := [sampleCreateChange], lastSync := 0 }
      (.httpResponse true { success := true }) 9).state.changes =
      [sampleCreateChange] ∧
    (sendInitialSync { changes := [sampleCreateChange], lastSync := 0 }
      (.httpResponse true { success := true }) 9).state.lastSync = 9 ∧
    (sendInitialSync { changes := [sampleCreateChange], lastSync := 0 }
      (.httpResponse true { success := true }) 9).outcome = .ok true :=
  C4_initial_import_keeps_queue { changes := [sampleCreateChange], lastSync := 0 }
    { success := true } 9 rfl

/-- C4 counterexample: the server acknowledged the initial import
(`outcome = ok true`) yet the local queue is not cleared. -/
theorem C4_counterexample :
    (sendInitialSync { changes := [sampleCreateChange2], lastSync := 2 }
      (.httpResponse true { success := true }) 9).outcome = .ok true ∧
    (sendInitialSync { changes := [sampleCreateChange2], lastSync := 2 }
      (.httpResponse true { success := true }) 9).state.changes ≠ [] := by
  constructor
  · rfl
  · decide

theorem createBookmark_ok_folders {db : ServerDB} {b : EntityInput}
    {p : ServerDB × RunInfo} (h : createBookmark db b = .ok p) :
    p.1.folders = db.folders := by
  simp only [createBookmark] at h
  split at h
  · split at h
    · cases h
      rfl
    · cases h
  · cases h

theorem updateBookmark_ok_folders {db : ServerDB} {u : EntityInput}
    {p : ServerDB × RunInfo} (h : updateBookmark db u = .ok p) :
    p.1.folders = db.folders := by
  simp only [updateBookmark] at h
  split at h
  · cases h
    rfl
  · split at h
    · split at h
      · cases h
        rfl
      · cases h
    · cases h

theorem processChange_bookmark_keeps_folders (db : ServerDB) (c : SyncChange)
    (h : c.data.type = some "bookmark") :
    (processChange db c).1.folders = db.folders := by
  have hb : (c.data.type == some "bookmark") = true := by
    rw [h]
    rfl
  cases hct : c.type with
  | CREATE =>
      simp only [processChange, hct, hb, if_true]
      cases hr : createBookmark db (entityInputOfData c.data) with
      | ok p => simpa using createBookmark_ok_folders hr
      | error m => simp
  | UPDATE =>
      simp only [processChange, hct, hb, if_true]
      cases hr : updateBookmark db (entityInputOfData c.data) with
      | ok p => simpa using updateBookmark_ok_folders hr
      | error m => simp
  | DELETE =>
      simp only [processChange, hct, hb, if_true]
      cases hr : updateBookmark db
          { entityInputOfData c.data with status := some "deleted" } with
      | ok p => simpa using updateBookmark_ok_folders hr
      | error m => simp
  | MOVE => simp [processChange, hct]

/-- C10.  Every host removal notification is captured with entity kind
`"bookmark"` (the handler cannot tell folders apart), and the server's
dispatch of any change tagged `"bookmark"` never touches the `folders`
table — so a folder removed on the client never gets its `folders` row
tombstoned. -/
theorem C10_removal_captured_as_bookmark (id : String) (s : StorageData)
    (db : ServerDB) (c : SyncChange) (h : c.data.type = some "bookmark") :
    (handleBookmarkRemoved id s).changes = s.changes ++
      [{ type := .DELETE,
         data := { type := some "bookmark", browserId := some id,
                   userId := some "default" } }] ∧
    (processChange db c).1.folders = db.folders :=
  ⟨rfl, processChange_bookmark_keeps_folders db c h⟩

/-- C10 witness: the concrete DELETE change captured for a removed
folder node `"b0"` is typed `"bookmark"`, and dispatching it against a
store whose `folders` table is empty leaves that table unchanged. -/
theorem C10_witness :
    (handleBookmarkRemoved "b0" { changes := [], lastSync := 0 }).changes =
      [] ++ [{ type := .DELETE,
               data := { type := some "bookmark", browserId := some "b0",
                         userId := some "default" } }] ∧
    (processChange dbOneBookmark
      { type := .DELETE,
        data := { type := some "bookmark", browserId := some "b0",
                  userId := some "default" } }).1.folders =
      dbOneBookmark.folders :=
  C10_removal_captured_as_bookmark "b0" { changes := [], lastSync := 0 }
    dbOneBookmark
    { type := .DELETE,
      data := { type := some "bookmark", browserId := some "b0",
                userId := some "default" } } rfl

theorem registerBrowser_bookmarks (db : ServerDB) (m : BrowserRow) :
    (registerBrowser db m).bookmarks = db.bookmarks := by
  unfold registerBrowser
  split <;> rfl

theorem registerBrowser_folders (db : ServerDB) (m : BrowserRow) :
    (registerBrowser db m).folders = db.folders := by
  unfold registerBrowser
  split <;> rfl

theorem registerBrowser_syncHistory (db : ServerDB) (m : BrowserRow) :
    (registerBrowser db m).syncHistory = db.syncHistory := by
  unfold registerBrowser
  split <;> rfl

theorem registerBrowser_nextBookmarkId (db : ServerDB) (m : BrowserRow) :
    (registerBrowser db m).nextBookmarkId = db.nextBookmarkId := by
  unfold registerBrowser
  split <;> rfl

theorem registerBrowser_nextSyncHistoryId (db : ServerDB) (m : BrowserRow) :
    (registerBrowser db m).nextSyncHistoryId = db.nextSyncHistoryId := by
  unfold registerBrowser
  split <;> rfl

theorem getBookmarkCount_registerBrowser (db : ServerDB) (m : BrowserRow)
    (d : String) :
    getBookmarkCount (registerBrowser db m) d = getBookmarkCount db d := by
  unfold getBookmarkCount
  rw [registerBrowser_bookmarks]

/-- C6.  On the five-change batch whose third item lacks the NOT NULL
`url`, the batch handler persists items 1, 2, 4 and 5, returns an error
entry exactly at position 3, and appends exactly one SyncHistoryEntry
with `changesCount = 5` and `status = 'SUCCESS'` despite the embedded
per-item error. -/
theorem C6_partial_batch_tolerance (db0 : ServerDB) (d : String)
    (meta : BrowserRow) (h : getBookmarkCount db0 d ≠ 0) :
    (handleSync db0 d meta batchOf5).results.map ItemResult.isFailed =
      [false, false, true, false, false] ∧
    (handleSync db0 d meta batchOf5).db.bookmarks.map
        (fun r => (r.browserId, r.userId)) =
      db0.bookmarks.map (fun r => (r.browserId, r.userId)) ++
        [("b1", "u1"), ("b2", "u1"), ("b4", "u1"), ("b5", "u1")] ∧
    (handleSync db0 d meta batchOf5).db.syncHistory =
      db0.syncHistory ++
        [{ id := db0.nextSyncHistoryId, userId := d, type := "SYNC",
           changesCount := 5, status := "SUCCESS",
           bookmarksProcessed := 5, foldersProcessed := 0 }] := by
  have hb : (getBookmarkCount (registerBrowser db0 meta) d == 0) = false := by
    rw [getBookmarkCount_registerBrowser]
    exact beq_eq_false_iff_ne.mpr h
  refine ⟨?_, ?_, ?_⟩ <;>
    simp [handleSync, hb, batchOf5, mkCreateChange, processChange,
      entityInputOfData, createBookmark, statusCheckOk, createSyncHistory,
      ItemResult.isFailed, registerBrowser_bookmarks,
      registerBrowser_syncHistory, registerBrowser_nextSyncHistoryId]

/-- C6 witness: the scenario evaluated on a store seeded with one
bookmark for owner `d1`. -/
theorem C6_witness :
    (handleSync dbOneBookmark "d1" sampleMeta batchOf5).results.map
      ItemResult.isFailed = [false, false, true, false, false] :=
  (C6_partial_batch_tolerance dbOneBookmark "d1" sampleMeta (by decide)).1

theorem getBookmarkCount_of_append {db db2 : ServerDB}
    {l : List BookmarkRow} (hb : db2.bookmarks = db.bookmarks ++ l)
    (d : String) :
    getBookmarkCount db2 d =
      getBookmarkCount db d + (l.filter (fun r => r.userId == d)).length := by
  unfold getBookmarkCount
  rw [hb, List.filter_append, List.length_append]

theorem handleSync_single_create (db0 : ServerDB) (d : String)
    (meta : BrowserRow) (bid uid url title pid : String) (pos added : Int)
    (h : getBookmarkCount db0 d ≠ 0) :
    (handleSync db0 d meta
        [mkCreateChange bid uid url title pid pos added]).db.bookmarks =
      db0.bookmarks ++
        [{ id := db0.nextBookmarkId, browserId := bid, userId := uid,
           url := url, title := title, parentId := pid, position := pos,
           dateAdded := added, status := some "active", syncVersion := 1 }] := by
  have hb : (getBookmarkCount (registerBrowser db0 meta) d == 0) = false := by
    rw [getBookmarkCount_registerBrowser]
    exact beq_eq_false_iff_ne.mpr h
  simp [handleSync, hb, mkCreateChange, processChange, entityInputOfData,
    createBookmark, statusCheckOk, createSyncHistory,
    registerBrowser_bookmarks, registerBrowser_nextBookmarkId]

/-- C2.  The spec claims re-submitting an already-acknowledged batch
does not duplicate entities.  `createBookmark` is a plain INSERT with no
upsert on the natural key, so running the batch handler twice with the
same CREATE change leaves two rows for the key where one application
leaves one. -/
theorem C2_resubmitted_batch_duplicates (db0 : ServerDB) (d : String)
    (meta : BrowserRow) (bid uid url title pid : String) (pos added : Int)
    (h : getBookmarkCount db0 d ≠ 0) :
    countByKey (handleSync (handleSync db0 d meta
        [mkCreateChange bid uid url title pid pos added]).db d meta
        [mkCreateChange bid uid url title pid pos added]).db bid uid =
      countByKey db0 bid uid + 2 ∧
    countByKey (handleSync db0 d meta
        [mkCreateChange bid uid url title pid pos added]).db bid uid =
      countByKey db0 bid uid + 1 := by
  have h1 := handleSync_single_create db0 d meta bid uid url title pid pos added h
  have h2 : getBookmarkCount
      (handleSync db0 d meta
        [mkCreateChange bid uid url title pid pos added]).db d ≠ 0 := by
    rw [getBookmarkCount_of_append h1 d]
    omega
  have h3 := handleSync_single_create
    (handleSync db0 d meta [mkCreateChange bid uid url title pid pos added]).db
    d meta bid uid url title pid pos added h2
  constructor
  · unfold countByKey
    rw [h3, h1]
    simp [List.filter_append]
  · unfold countByKey
    rw [h1]
    simp [List.filter_append]

/-- C2 witness: double submission against a seeded store adds two rows
for key `("b8", "u1")`. -/
theorem C2_witness :
    countByKey (handleSync (handleSync dbOneBookmark "d1" sampleMeta
        [mkCreateChange "b8" "u1" "https://w.example" "W" "1" 0 5]).db "d1"
        sampleMeta
        [mkCreateChange "b8" "u1" "https://w.example" "W" "1" 0 5]).db
      "b8" "u1" = countByKey dbOneBookmark "b8" "u1" + 2 :=
  (C2_resubmitted_batch_duplicates dbOneBookmark "d1" sampleMeta
    "b8" "u1" "https://w.example" "W" "1" 0 5 (by decide)).1

/-- C2 counterexample: the set of rows after two applications (2 rows
for the key) differs from the set after one (1 row), refuting "applying
the handler twice leaves the same set of entity rows as applying it
once". -/
theorem C2_counterexample :
    countByKey (handleSync (handleSync dbOneBookmark "d1" sampleMeta
        [mkCreateChange "b9" "u1" "https://w.example" "W" "1" 0 5]).db "d1"
        sampleMeta
        [mkCreateChange "b9" "u1" "https://w.example" "W" "1" 0 5]).db
      "b9" "u1" = 2 ∧
    countByKey (handleSync dbOneBookmark "d1" sampleMeta
        [mkCreateChange "b9" "u1" "https://w.example" "W" "1" 0 5]).db
      "b9" "u1" = 1 := by
  decide

theorem createFolder_ok_bookmarks {db : ServerDB} {f : EntityInput}
    {p : ServerDB × RunInfo} (h : createFolder db f = .ok p) :
    p.1.bookmarks = db.bookmarks := by
  simp only [createFolder] at h
  split at h
  · split at h
    · cases h
      rfl
    · cases h
  · cases h

theorem importFolders_ok_bookmarks {d : String} {fs : List EntityInput} :
    ∀ {db db2 : ServerDB}, importFolders d db fs = .ok db2 →
      db2.bookmarks = db.bookmarks := by
  induction fs with
  | nil =>
      intro db db2 h
      cases h
      rfl
  | cons f rest ih =>
      intro db db2 h
      simp only [importFolders] at h
      split at h
      · cases h
      · rename_i step hstep
        rw [ih h]
        exact createFolder_ok_bookmarks hstep

theorem createBookmark_ok_count {db : ServerDB} {b : EntityInput}
    {p : ServerDB × RunInfo} {u : String} (h : createBookmark db b = .ok p)
    (hu : b.userId = some u) :
    getBookmarkCount p.1 u = getBookmarkCount db u + 1 := by
  simp only [createBookmark] at h
  split at h
  · rename_i bid uid url title pid pos added hbid huid hurl htitle hpid hpos hadded
    split at h
    · cases h
      have : uid = u := by
        rw [hu] at huid
        exact (Option.some.inj huid).symm
      subst this
      simp [getBookmarkCount, List.filter_append]
    · cases h
  · cases h

theorem importBookmarks_ok_count {d : String} {bs : List EntityInput} :
    ∀ {db db2 : ServerDB}, importBookmarks d db bs = .ok db2 →
      getBookmarkCount db2 d = getBookmarkCount db d + bs.length := by
  induction bs with
  | nil =>
      intro db db2 h
      cases h
      simp
  | cons b rest ih =>
      intro db db2 h
      simp only [importBookmarks] at h
      split at h
      · cases h
      · rename_i step hstep
        have h1 : getBookmarkCount step.1 d = getBookmarkCount db d + 1 :=
          createBookmark_ok_count hstep rfl
        have h2 := ih h
        rw [h2, h1, List.length_cons]
        omega

/-- C5.  The spec claims `needsInitialImport` is true iff the Entity
Store holds zero rows (folders or bookmarks) for the owner.  The status
endpoint only counts the `bookmarks` table, so the iff holds for
bookmark rows only, and a successful initial import guarantees a `false`
answer only when it contained at least one bookmark. -/
theorem C5_status_counts_bookmark_rows_only (db0 : ServerDB) (d : String)
    (meta : BrowserRow) (folders bookmarks : List EntityInput)
    (db1 : ServerDB) (hbm : bookmarks ≠ [])
    (hok : handleInitialSync db0 d meta folders bookmarks = .ok db1) :
    statusNeedsInitialSync db1 d = false ∧
    (∀ db u, statusNeedsInitialSync db u = true ↔
      getBookmarkCount db u = 0) := by
  refine ⟨?_, fun db u => by simp [statusNeedsInitialSync]⟩
  simp only [handleInitialSync] at hok
  split at hok
  · cases hok
  · rename_i dbf hf
    split at hok
    · cases hok
    · rename_i dbb hbk
      cases hok
      have hc : getBookmarkCount dbb d =
          getBookmarkCount dbf d + bookmarks.length :=
        importBookmarks_ok_count hbk
      have hlen : bookmarks.length ≠ 0 := by
        simpa using hbm
      have : getBookmarkCount
          (createSyncHistory dbb d "INITIAL_IMPORT" "SUCCESS"
            (bookmarks.length + folders.length) bookmarks.length
            folders.length) d = getBookmarkCount dbb d := rfl
      simp only [statusNeedsInitialSync, this, hc]
      exact beq_eq_false_iff_ne.mpr (by omega)

/-- C5 witness: a one-bookmark import for device `d1` flips the status
to `false`. -/
theorem C5_witness :
    statusNeedsInitialSync dbAfterImport "d1" = false :=
  (C5_status_counts_bookmark_rows_only emptyDB "d1" sampleMeta []
    [fullBookmarkInput] dbAfterImport (by decide) rfl).1

/-- C5 counterexample: a successful folders-only initial import leaves a
folder row in the store, yet the status endpoint still answers
`needsInitialSync = true` — refuting "true iff zero rows (folders or
bookmarks)" and "after any successful applyInitialImport it returns
false". -/
theorem C5_counterexample :
    (handleInitialSync emptyDB "d1" sampleMeta [sampleFolderInput] []).map
      (fun db => (statusNeedsInitialSync db "d1", db.folders.length)) =
    .ok (true, 1) := by
  rfl

/-- C9.  Row-level version behaviour of the Entity Store operations: an
insert appends one fresh row (existing rows untouched, none removed)
whose version is the supplied one or 1; an accepted update keeps every
row (same ids, same count), never decrements a version, bumps every
matched row by exactly 1 — including the tombstoning update that sets
`status = 'deleted'` — and leaves unmatched rows identical.  The claim's
key-level clause fails: a CREATE after a tombstone starts a fresh row at
version 1 (see the counterexample). -/
theorem C9_row_version_monotone (db : ServerDB) (b u : EntityInput) :
    (∀ p, createBookmark db b = .ok p →
      ∃ row, p.1.bookmarks = db.bookmarks ++ [row] ∧
        row.syncVersion = (b.syncVersion).getD 1) ∧
    (∀ p, updateBookmark db u = .ok p →
      List.Forall₂ (fun r s : BookmarkRow =>
        r.id = s.id ∧ r.syncVersion ≤ s.syncVersion ∧
        (rowMatchesBookmark u r = true → s.syncVersion = r.syncVersion + 1) ∧
        (rowMatchesBookmark u r = false → s = r))
        db.bookmarks p.1.bookmarks) ∧
    (∀ p, createFolder db b = .ok p →
      ∃ row, p.1.folders = db.folders ++ [row] ∧
        row.syncVersion = (b.syncVersion).getD 1) ∧
    (∀ p, updateFolder db u = .ok p →
      List.Forall₂ (fun r s : FolderRow =>
        r.id = s.id ∧ r.syncVersion ≤ s.syncVersion ∧
        (rowMatchesFolder u r = true → s.syncVersion = r.syncVersion + 1) ∧
        (rowMatchesFolder u r = false → s = r))
        db.folders p.1.folders) := by
  refine ⟨?_, ?_, ?_, ?_⟩
  · intro p hp
    simp only [createBookmark] at hp
    split at hp
    · split at hp
      · cases hp
        exact ⟨_, rfl, rfl⟩
      · cases hp
    · cases hp
  · intro p hp
    simp only [updateBookmark] at hp
    split at hp
    · rename_i hemp
      cases hp
      rw [List.forall₂_same]
      intro r hr
      have hm : rowMatchesBookmark u r = false := by
        rw [List.isEmpty_iff] at hemp
        by_contra hb
        have : r ∈ db.bookmarks.filter (rowMatchesBookmark u) :=
          List.mem_filter.mpr ⟨hr, by simpa using hb⟩
        rw [hemp] at this
        exact List.not_mem_nil r this
      exact ⟨rfl, le_refl _, fun ht => absurd ht (by simp [hm]),
        fun _ => rfl⟩
    · split at hp
      · split at hp
        · cases hp
          rw [List.forall₂_map_right_iff, List.forall₂_same]
          intro r hr
          by_cases hm : rowMatchesBookmark u r = true
          · rw [if_pos hm]
            refine ⟨rfl, by change r.syncVersion ≤ r.syncVersion + 1; omega,
              fun _ => rfl, fun hf => ?_⟩
            rw [hm] at hf
            cases hf
          · rw [if_neg hm]
            exact ⟨rfl, le_refl _, fun ht => absurd ht hm, fun _ => rfl⟩
        · cases hp
      · cases hp
  · intro p hp
    simp only [createFolder] at hp
    split at hp
    · split at hp
      · cases hp
        exact ⟨_, rfl, rfl⟩
      · cases hp
    · cases hp
  · intro p hp
    simp only [updateFolder] at hp
    split at hp
    · rename_i hemp
      cases hp
      rw [List.forall₂_same]
      intro r hr
      have hm : rowMatchesFolder u r = false := by
        rw [List.isEmpty_iff] at hemp
        by_contra hb
        have : r ∈ db.folders.filter (rowMatchesFolder u) :=
          List.mem_filter.mpr ⟨hr, by simpa using hb⟩
        rw [hemp] at this
        exact List.not_mem_nil r this
      exact ⟨rfl, le_refl _, fun ht => absurd ht (by simp [hm]),
        fun _ => rfl⟩
    · split at hp
      · split at hp
        · cases hp
          rw [List.forall₂_map_right_iff, List.forall₂_same]
          intro r hr
          by_cases hm : rowMatchesFolder u r = true
          · rw [if_pos hm]
            refine ⟨rfl, by change r.syncVersion ≤ r.syncVersion + 1; omega,
              fun _ => rfl, fun hf => ?_⟩
            rw [hm] at hf
            cases hf
          · rw [if_neg hm]
            exact ⟨rfl, le_refl _, fun ht => absurd ht hm, fun _ => rfl⟩
        · cases hp
      · cases hp

/-- C9 witness: inserting `fullBookmarkInput` into the empty store
appends one row at version 1. -/
theorem C9_witness :
    ∃ row, dbAfterFirstCreate.bookmarks = emptyDB.bookmarks ++ [row] ∧
      row.syncVersion = (fullBookmarkInput.syncVersion).getD 1 :=
  (C9_row_version_monotone emptyDB fullBookmarkInput tombstoneInput).1
    (dbAfterFirstCreate, { changes := 1, lastInsertRowid := 1 }) rfl

/-- C9 counterexample: CREATE key `(b1,u1)` (version 1), tombstone it
(version 2), CREATE the same key again — the new row starts at version
1 < 2, so the version sequence observed across operations on the key
does not keep incrementing, refuting the claim's key-level monotonicity
clause. -/
theorem C9_counterexample :
    ((createBookmark emptyDB fullBookmarkInput).bind fun p1 =>
      (updateBookmark p1.1 tombstoneInput).bind fun p2 =>
        (createBookmark p2.1 fullBookmarkInput).map fun p3 =>
          p3.1.bookmarks.map fun r =>
            (r.browserId, r.userId, r.status, r.syncVersion)) =
    .ok [("b1", "u1", some "deleted", 2), ("b1", "u1", some "active", 1)] := by
  rfl

end Bookmarx
